import Mathlib

/-!
Verification of the OrderedDataStore client layer of `rbxcloud`
(`src/rbx/ordered_datastore.rs`), against its natural-language specification.

The Rust operations are embedded shallowly: each async operation becomes a
pure Lean function over an explicit transport `send : HttpRequest →
TransportResult`, returning the `Result` value together with the list of HTTP
requests the call issued (so "exactly one request" is a provable statement).
JSON bodies are modelled by an inductive `Json` value type (serde_json
`Value`); serde-derived decoders become explicit `Json → Option T` functions.
-/

/-- Modelled from the spec: `crate::rbx::UniverseId` is not under `src/`.
Spec §4.1: "universe identifier is a positive integer rendered in decimal". -/
def UniverseId := Nat

instance : ToString UniverseId := ⟨fun u => Nat.repr u⟩

instance : OfNat UniverseId n := ⟨(n : Nat)⟩

/-- Modelled from the spec: `crate::rbx::PageSize` is not under `src/`.
Spec §4.2: integers are stringified in decimal. -/
def PageSize := Nat

instance : ToString PageSize := ⟨fun u => Nat.repr u⟩

instance : OfNat PageSize n := ⟨(n : Nat)⟩

/-- Modelled from the spec: `crate::rbx::util::QueryString` is not under
`src/`; it is the ordered sequence of query (name, value) string pairs of
spec §4.2. -/
abbrev QueryString := List (String × String)

/-- serde_json `Value`.  Numbers are modelled as rationals: the write path
only ever stores `i64` integers in them, and the read path decodes any JSON
number into an `f64` field, so one numeric carrier suffices for this client. -/
inductive Json where
  | null
  | bool (b : Bool)
  | num (q : Rat)
  | str (s : String)
  | arr (elems : List Json)
  | obj (fields : List (String × Json))

/-- JSON string escaping as serde_json performs it: `"` and `\` are escaped,
the named control escapes are used for 0x08/0x09/0x0A/0x0C/0x0D, and the
remaining control characters become `\u00XX`. -/
def escapeChar (c : Char) : String :=
  if c = '"' then "\\\""
  else if c = '\\' then "\\\\"
  else if c = '\x08' then "\\b"
  else if c = '\t' then "\\t"
  else if c = '\n' then "\\n"
  else if c = '\x0c' then "\\f"
  else if c = '\r' then "\\r"
  else if c.toNat < 0x20 then
    let hexDigit (n : Nat) : Char := if n < 10 then Char.ofNat (48 + n) else Char.ofNat (87 + n)
    "\\u00" ++ String.singleton (hexDigit (c.toNat / 16)) ++ String.singleton (hexDigit (c.toNat % 16))
  else String.singleton c

def escapeString (s : String) : String :=
  s.data.foldl (fun acc c => acc ++ escapeChar c) ""

/-- Rendering of a JSON number.  The client's write bodies contain only `i64`
integers, which serde_json renders in plain decimal (the integer branch
below).  serde_json renders `f64` numbers with the ryu shortest-decimal
algorithm; that branch is unreachable from this client's write path (nothing
in `ordered_datastore.rs` serializes a float), so it is left as a marked
placeholder rather than modelled. -/
def renderNum (q : Rat) : String :=
  if q.den = 1 then Int.repr q.num
  else "<f64:" ++ Int.repr q.num ++ "/" ++ Nat.repr q.den ++ ">"

mutual

/-- Compact serialization of a `Json` value, as `serde_json::to_string`
renders a `Value` (no whitespace). -/
def jsonToString : Json → String
  | .null => "null"
  | .bool b => if b then "true" else "false"
  | .num q => renderNum q
  | .str s => "\"" ++ escapeString s ++ "\""
  | .arr elems => "[" ++ jsonArrayToString elems ++ "]"
  | .obj fields => "\x7b" ++ jsonObjectToString fields ++ "\x7d"

def jsonArrayToString : List Json → String
  | [] => ""
  | [j] => jsonToString j
  | j :: rest => jsonToString j ++ "," ++ jsonArrayToString rest

def jsonObjectToString : List (String × Json) → String
  | [] => ""
  | [(k, v)] => "\"" ++ escapeString k ++ "\":" ++ jsonToString v
  | (k, v) :: rest =>
      "\"" ++ escapeString k ++ "\":" ++ jsonToString v ++ "," ++ jsonObjectToString rest

end

/-- `serde_json::to_string` applied to a `serde_json::Value`.  Its `Result`
is `Err` only when a `Serialize` impl or the writer reports an error; for a
`Value` written to an in-memory `String` neither can happen, so the
modelled function always returns `.ok` — the `?` branch it feeds in the
Rust callers exists but is unreachable (claim C10). -/
def serde_to_string (j : Json) : Except String String :=
  .ok (jsonToString j)

/-- Modelled from the spec: `crate::rbx::ds_error::DataStoreErrorResponse`
is not under `src/`.  Spec §3 "Error envelope": "a machine-readable error
code/category and a human-readable message"; spec §8 shows the wire shape
`\x7b"code":"NOT_FOUND","message":"..."\x7d`. -/
structure DataStoreErrorResponse where
  code : String
  message : String
deriving DecidableEq, Repr

/-- Modelled from the spec: `crate::rbx::error::Error` is not under `src/`.
Spec §7 gives the taxonomy: `Transport` (transport failure, from a failed
`send()`), `DataStoreError` (service error carrying the decoded envelope,
constructed in `handle_res`/`handle_res_ok`), and `Undecodable` (a 2xx body
failing schema decoding, or a non-2xx body failing envelope decoding, from a
failed `res.json()`).  `SerdeJson` is the variant fed by the `?` on
`serde_json::to_string` in the write operations (spec §7 omits it because it
is unreachable; claim C10). -/
inductive Error where
  | Transport (msg : String)
  | Undecodable (msg : String)
  | SerdeJson (msg : String)
  | DataStoreError (e : DataStoreErrorResponse)
deriving DecidableEq, Repr

/-- Body of an HTTP response: either bytes that parse as JSON (carried as the
parsed value) or bytes that do not. -/
inductive HttpBody where
  | json (j : Json)
  | malformed

structure HttpResponse where
  status : Nat
  body : HttpBody

/-- `reqwest::StatusCode::is_success`: the 2xx class. -/
def isSuccess (status : Nat) : Bool :=
  200 ≤ status && status < 300

inductive Method where
  | GET
  | POST
  | PATCH
  | DELETE
deriving DecidableEq, Repr

/-- The one HTTP request an operation hands to the transport: method, URL,
headers set on the builder, query pairs appended to the URL, and the optional
body payload.  reqwest's `.body(String)` sets only the payload — it attaches
no `content-type` header (only `.json(..)` would). -/
structure HttpRequest where
  method : Method
  url : String
  headers : List (String × String)
  query : List (String × String)
  body : Option String
deriving DecidableEq, Repr

/-- Outcome of `send()`: a response, or a transport-level failure
(DNS/TLS/connection/timeout — the request never completed). -/
inductive TransportResult where
  | ok (res : HttpResponse)
  | failure (msg : String)

/-- `res.json::<T>().await` for a received response, with the serde decoder
for `T` passed explicitly: parse failure or schema mismatch is a reqwest
decode error, which the modelled `From<reqwest::Error> for Error` (spec §7,
`error.rs` not under `src/`) classifies as `Error.Undecodable`. -/
def response_json {T : Type} (dec : Json → Option T) (res : HttpResponse) : Except Error T :=
  match res.body with
  | .malformed => .error (.Undecodable "response body is not valid JSON")
  | .json j =>
    match dec j with
    | none => .error (.Undecodable "response body does not match the expected schema")
    | some t => .ok t

/-- `handle_res::<T>` from `ordered_datastore.rs`: on a 2xx status decode the
body as `T`; otherwise decode the body as the error envelope (the `?`
propagating its decode failure) and wrap it as `Error::DataStoreError`. -/
def handle_res {T : Type} (dec : Json → Option T) (decEnv : Json → Option DataStoreErrorResponse)
    (res : HttpResponse) : Except Error T :=
  match isSuccess res.status with
  | true => response_json dec res
  | false =>
    match response_json decEnv res with
    | .ok err_res => .error (.DataStoreError err_res)
    | .error e => .error e

/-- `handle_res_ok` from `ordered_datastore.rs`: on a 2xx status succeed with
`()` without touching the body; otherwise behave as `handle_res`. -/
def handle_res_ok (decEnv : Json → Option DataStoreErrorResponse)
    (res : HttpResponse) : Except Error Unit :=
  match isSuccess res.status with
  | true => .ok ()
  | false =>
    match response_json decEnv res with
    | .ok err_res => .error (.DataStoreError err_res)
    | .error e => .error e

/-- `build_url` from `ordered_datastore.rs`: scope defaults to `"global"`,
then the path is formatted; the source special-cases an empty endpoint even
though both branches render the same string. -/
def build_url (endpoint : String) (universe_id : UniverseId) (scope : Option String) : String :=
  let s := scope.getD "global"
  if endpoint.isEmpty then
    "https://apis.roblox.com/ordered-data-stores/v1/universes/" ++ toString universe_id
      ++ "/orderedDataStores/scopes/" ++ s
  else
    "https://apis.roblox.com/ordered-data-stores/v1/universes/" ++ toString universe_id
      ++ "/orderedDataStores/scopes/" ++ s ++ endpoint

/-- `OrderedEntry` from `ordered_datastore.rs` (§3/§4.3 Entry): `path` and
`id` are strings and `value` is an `f64`, modelled as a rational. -/
structure OrderedEntry where
  path : String
  id : String
  value : Rat
deriving DecidableEq, Repr

/-- `OrderedListEntriesResponse` from `ordered_datastore.rs`: the listing
page, deserialized with `#[serde(rename_all = "camelCase")]`, so the wire
field for `next_page_token` is `nextPageToken`. -/
structure OrderedListEntriesResponse where
  entries : List OrderedEntry
  next_page_token : Option String
deriving DecidableEq, Repr

/-- serde's struct map visitor keeps the first occurrence of a known field
and errors on a duplicate; unknown fields are skipped.  `none` models the
"duplicate field" error; `some none` models an absent field. -/
def getUnique (fields : List (String × Json)) (key : String) : Option (Option Json) :=
  match fields.filter (fun kv => kv.1 == key) with
  | [] => some none
  | [kv] => some (some kv.2)
  | _ => none

/-- serde decode of a required `String` field value. -/
def decodeString : Json → Option String
  | .str s => some s
  | _ => none

/-- serde decode of an `f64` field value: any JSON number is accepted
(serde_json converts integer numbers to `f64`). -/
def decodeF64 : Json → Option Rat
  | .num q => some q
  | _ => none

/-- serde decode of an `Option<String>` field: an absent field and JSON
`null` both give `None`; a string gives `Some`; anything else is an error. -/
def decodeOptString : Option Json → Option (Option String)
  | none => some none
  | some .null => some none
  | some (.str s) => some (some s)
  | some _ => none

/-- Derived `Deserialize` for `OrderedEntry`: an object with required fields
`path: String`, `id: String`, `value: f64`; unknown fields ignored. -/
def decodeOrderedEntry : Json → Option OrderedEntry
  | .obj fields =>
    match getUnique fields "path", getUnique fields "id", getUnique fields "value" with
    | some (some pathJ), some (some idJ), some (some valueJ) =>
      match decodeString pathJ, decodeString idJ, decodeF64 valueJ with
      | some path, some id, some value => some ⟨path, id, value⟩
      | _, _, _ => none
    | _, _, _ => none
  | _ => none

/-- serde decode of `Vec<OrderedEntry>`: the sequence visitor decodes each
element in order and fails on the first element that does not decode. -/
def decodeEntries : List Json → Option (List OrderedEntry)
  | [] => some []
  | j :: rest =>
    match decodeOrderedEntry j, decodeEntries rest with
    | some e, some es => some (e :: es)
    | _, _ => none

/-- Derived `Deserialize` for `OrderedListEntriesResponse`: required
`entries: Vec<OrderedEntry>` and optional `nextPageToken: Option<String>`
(camelCase wire name). -/
def decodeListResponse : Json → Option OrderedListEntriesResponse
  | .obj fields =>
    match getUnique fields "entries", getUnique fields "nextPageToken" with
    | some (some (.arr elems)), some tokenField =>
      match decodeEntries elems, decodeOptString tokenField with
      | some entries, some token => some ⟨entries, token⟩
      | _, _ => none
    | _, _ => none
  | _ => none

/-- Modelled from the spec: the `Deserialize` impl of
`DataStoreErrorResponse` lives in `ds_error.rs`, not under `src/`.  Spec §3
and §8: an envelope object with a `code` and a `message` string. -/
def decodeDsError : Json → Option DataStoreErrorResponse
  | .obj fields =>
    match getUnique fields "code", getUnique fields "message" with
    | some (some codeJ), some (some messageJ) =>
      match decodeString codeJ, decodeString messageJ with
      | some code, some message => some ⟨code, message⟩
      | _, _ => none
    | _, _ => none
  | _ => none

/-- Parameter record of `list_entries`. -/
structure OrderedListEntriesParams where
  api_key : String
  universe_id : UniverseId
  ordered_datastore_name : String
  scope : Option String
  max_page_size : Option PageSize
  page_token : Option String
  order_by : Option String
  filter : Option String

/-- Parameter record of `create_entry`. -/
structure OrderedCreateEntryParams where
  api_key : String
  universe_id : UniverseId
  ordered_datastore_name : String
  scope : Option String
  id : String
  value : Int

/-- Parameter record of `update_entry`. -/
structure OrderedUpdateEntryParams where
  api_key : String
  universe_id : UniverseId
  ordered_datastore_name : String
  scope : Option String
  id : String
  value : Int
  allow_missing : Option Bool

/-- Parameter record of `increment_entry`. -/
structure OrderedIncrementEntryParams where
  api_key : String
  universe_id : UniverseId
  ordered_datastore_name : String
  scope : Option String
  id : String
  increment : Int

/-- Parameter record of `get_entry` and `delete_entry`. -/
structure OrderedEntryParams where
  api_key : String
  universe_id : UniverseId
  ordered_datastore_name : String
  scope : Option String
  id : String

/-- The query of `list_entries`: the source pushes, in order, each of
`max_page_size`, `page_token`, `order_by`, `filter` that is present,
stringified with `to_string()`. -/
def list_entries_query (params : OrderedListEntriesParams) : QueryString :=
  (match params.max_page_size with
   | some max_page_size => [("max_page_size", toString max_page_size)]
   | none => []) ++
  (match params.page_token with
   | some page_token => [("page_token", page_token)]
   | none => []) ++
  (match params.order_by with
   | some order_by => [("order_by", order_by)]
   | none => []) ++
  (match params.filter with
   | some filter => [("filter", filter)]
   | none => [])

/-- The one request `list_entries` builds: GET on the `/entries` suffix with
the `x-api-key` header and the optional-parameter query; no body. -/
def list_entries_request (params : OrderedListEntriesParams) : HttpRequest where
  method := .GET
  url := build_url "/entries" params.universe_id params.scope
  headers := [("x-api-key", params.api_key)]
  query := list_entries_query params
  body := none

/-- `list_entries`, run against an explicit transport; the second component
is the list of HTTP requests the call issued. -/
def list_entries (params : OrderedListEntriesParams)
    (send : HttpRequest → TransportResult) :
    Except Error OrderedListEntriesResponse × List HttpRequest :=
  let req := list_entries_request params
  match send req with
  | .failure e => (.error (.Transport e), [req])
  | .ok res => (handle_res decodeListResponse decodeDsError res, [req])

/-- The write body of `create_entry` and `update_entry`:
`json!(\x7b "value": &params.value \x7d)` with an `i64` value. -/
def value_body (value : Int) : Json :=
  .obj [("value", .num (value : Rat))]

/-- The one request `create_entry` builds: POST on the `/entries` suffix
with query `id` and the serialized `value` body; reqwest's `.body(..)` sets
no content-type header, so the headers hold only `x-api-key`. -/
def create_entry_request (params : OrderedCreateEntryParams) (body : String) : HttpRequest where
  method := .POST
  url := build_url "/entries" params.universe_id params.scope
  headers := [("x-api-key", params.api_key)]
  query := [("id", params.id)]
  body := some body

/-- `create_entry`, run against an explicit transport. -/
def create_entry (params : OrderedCreateEntryParams)
    (send : HttpRequest → TransportResult) :
    Except Error OrderedEntry × List HttpRequest :=
  match serde_to_string (value_body params.value) with
  | .error e => (.error (.SerdeJson e), [])
  | .ok body =>
    let req := create_entry_request params body
    match send req with
    | .failure e => (.error (.Transport e), [req])
    | .ok res => (handle_res decodeOrderedEntry decodeDsError res, [req])

/-- The one request `get_entry` builds: GET on `/entries/\x7bid\x7d` with
only the `x-api-key` header; no query, no body. -/
def get_entry_request (params : OrderedEntryParams) : HttpRequest where
  method := .GET
  url := build_url ("/entries/" ++ params.id) params.universe_id params.scope
  headers := [("x-api-key", params.api_key)]
  query := []
  body := none

/-- `get_entry`, run against an explicit transport. -/
def get_entry (params : OrderedEntryParams)
    (send : HttpRequest → TransportResult) :
    Except Error OrderedEntry × List HttpRequest :=
  let req := get_entry_request params
  match send req with
  | .failure e => (.error (.Transport e), [req])
  | .ok res => (handle_res decodeOrderedEntry decodeDsError res, [req])

/-- The one request `delete_entry` builds: DELETE on `/entries/\x7bid\x7d`. -/
def delete_entry_request (params : OrderedEntryParams) : HttpRequest where
  method := .DELETE
  url := build_url ("/entries/" ++ params.id) params.universe_id params.scope
  headers := [("x-api-key", params.api_key)]
  query := []
  body := none

/-- `delete_entry`, run against an explicit transport; success is handled by
`handle_res_ok`, which never reads a 2xx body. -/
def delete_entry (params : OrderedEntryParams)
    (send : HttpRequest → TransportResult) :
    Except Error Unit × List HttpRequest :=
  let req := delete_entry_request params
  match send req with
  | .failure e => (.error (.Transport e), [req])
  | .ok res => (handle_res_ok decodeDsError res, [req])

/-- The query of `update_entry`: `allow_missing` when present, stringified
with Rust's `bool` `Display` (`"true"` / `"false"`). -/
def update_entry_query (params : OrderedUpdateEntryParams) : QueryString :=
  match params.allow_missing with
  | some allow_missing => [("allow_missing", if allow_missing then "true" else "false")]
  | none => []

/-- The one request `update_entry` builds: PATCH on `/entries/\x7bid\x7d`
with the optional `allow_missing` query and the serialized `value` body. -/
def update_entry_request (params : OrderedUpdateEntryParams) (body : String) : HttpRequest where
  method := .PATCH
  url := build_url ("/entries/" ++ params.id) params.universe_id params.scope
  headers := [("x-api-key", params.api_key)]
  query := update_entry_query params
  body := some body

/-- `update_entry`, run against an explicit transport. -/
def update_entry (params : OrderedUpdateEntryParams)
    (send : HttpRequest → TransportResult) :
    Except Error OrderedEntry × List HttpRequest :=
  match serde_to_string (value_body params.value) with
  | .error e => (.error (.SerdeJson e), [])
  | .ok body =>
    let req := update_entry_request params body
    match send req with
    | .failure e => (.error (.Transport e), [req])
    | .ok res => (handle_res decodeOrderedEntry decodeDsError res, [req])

/-- The write body of `increment_entry`:
`json!(\x7b "amount": &params.increment \x7d)` with an `i64` amount. -/
def amount_body (increment : Int) : Json :=
  .obj [("amount", .num (increment : Rat))]

/-- The one request `increment_entry` builds: PATCH on the
`/entries/\x7bid\x7d:increment` suffix with the serialized `amount` body. -/
def increment_entry_request (params : OrderedIncrementEntryParams) (body : String) : HttpRequest where
  method := .PATCH
  url := build_url ("/entries/" ++ params.id ++ ":increment") params.universe_id params.scope
  headers := [("x-api-key", params.api_key)]
  query := []
  body := some body

/-- `increment_entry`, run against an explicit transport. -/
def increment_entry (params : OrderedIncrementEntryParams)
    (send : HttpRequest → TransportResult) :
    Except Error OrderedEntry × List HttpRequest :=
  match serde_to_string (amount_body params.increment) with
  | .error e => (.error (.SerdeJson e), [])
  | .ok body =>
    let req := increment_entry_request params body
    match send req with
    | .failure e => (.error (.Transport e), [req])
    | .ok res => (handle_res decodeOrderedEntry decodeDsError res, [req])


/-- The pairs of a request's query that carry a given parameter name. -/
def queryKeyPairs (req : HttpRequest) (key : String) : List (String × String) :=
  req.query.filter (fun kv => kv.1 == key)

/-- Whether a request carries a header with the given name. -/
def hasHeader (req : HttpRequest) (name : String) : Bool :=
  req.headers.any (fun kv => kv.1 == name)

/-- Whether a result is the local serialization-error kind. -/
def isSerdeJsonError {T : Type} : Except Error T → Bool
  | .error (.SerdeJson _) => true
  | _ => false

/-- A transport that delivers the given response to every request. -/
def sendConst (res : HttpResponse) : HttpRequest → TransportResult :=
  fun _ => .ok res

/-- Fixture: `list_entries` parameters with every optional field present. -/
def listParamsSample : OrderedListEntriesParams :=
  ⟨"key", 1, "ds", none, some 25, some "tok", some "value desc", some "entry > 10"⟩

/-- Fixture: `create_entry` parameters with id `"u1"` and value `42`. -/
def createParamsSample : OrderedCreateEntryParams :=
  ⟨"key", 1, "ds", none, "u1", 42⟩

/-- Fixture: `update_entry` parameters with `allow_missing = Some(true)`. -/
def updateParamsSample : OrderedUpdateEntryParams :=
  ⟨"key", 1, "ds", none, "u1", 42, some true⟩

/-- Fixture: `increment_entry` parameters with increment `-5`. -/
def incrementParamsSample : OrderedIncrementEntryParams :=
  ⟨"key", 1, "ds", none, "e1", -5⟩

/-- Fixture: `get_entry` / `delete_entry` parameters for id `"u1"`. -/
def entryParamsSample : OrderedEntryParams :=
  ⟨"key", 1, "ds", none, "u1"⟩

/-- Fixture: a decodable `OrderedEntry` body with `value` equal to `42.0`. -/
def entryJsonSample : Json :=
  .obj [("path", .str "scopes/global/entries/u1"), ("id", .str "u1"), ("value", .num 42)]

/-- Fixture: a 200 response carrying `entryJsonSample`. -/
def res200entry : HttpResponse := ⟨200, .json entryJsonSample⟩

/-- Fixture: a 404 response with a decodable `NOT_FOUND` error envelope. -/
def res404notFound : HttpResponse :=
  ⟨404, .json (.obj [("code", .str "NOT_FOUND"), ("message", .str "Entry not found.")])⟩

/-- Fixture: a 200 response whose body does not parse as JSON. -/
def res200malformed : HttpResponse := ⟨200, .malformed⟩

/-- Fixture: a 204 response with an empty body (an empty body is not valid
JSON, so it is `malformed` for any decoder that would touch it). -/
def res204empty : HttpResponse := ⟨204, .malformed⟩

/-- Claim C3: for every universe id, optional scope and suffix, `build_url`
returns exactly
`https://apis.roblox.com/ordered-data-stores/v1/universes/\x7buniverse\x7d/orderedDataStores/scopes/\x7bscope\x7d\x7bsuffix\x7d`
with the universe rendered in decimal; an absent scope resolves to the
literal `"global"` (so the path contains the segment `scopes/global`), scope
`"players"` gives `scopes/players`, and this resolution affects only the URL
of the request each operation builds — every other request component is
scope-independent. -/
theorem C3_build_url_scope_resolution :
    (∀ (u : UniverseId) (scope : Option String) (suffix : String),
      build_url suffix u scope
        = "https://apis.roblox.com/ordered-data-stores/v1/universes/" ++ toString u
            ++ "/orderedDataStores/scopes/" ++ scope.getD "global" ++ suffix) ∧
    (∀ (u : UniverseId) (suffix : String),
      ∃ a b, build_url suffix u none = a ++ "scopes/global" ++ b) ∧
    (∀ (u : UniverseId) (suffix : String),
      ∃ a b, build_url suffix u (some "players") = a ++ "scopes/players" ++ b) ∧
    toString (480296282 : UniverseId) = "480296282" ∧
    (∀ (p : OrderedListEntriesParams) (s : Option String),
      list_entries_request { p with scope := s }
        = { list_entries_request p with url := build_url "/entries" p.universe_id s }) ∧
    (∀ (p : OrderedCreateEntryParams) (s : Option String) (body : String),
      create_entry_request { p with scope := s } body
        = { create_entry_request p body with url := build_url "/entries" p.universe_id s }) ∧
    (∀ (p : OrderedEntryParams) (s : Option String),
      get_entry_request { p with scope := s }
        = { get_entry_request p with
              url := build_url ("/entries/" ++ p.id) p.universe_id s }) ∧
    (∀ (p : OrderedEntryParams) (s : Option String),
      delete_entry_request { p with scope := s }
        = { delete_entry_request p with
              url := build_url ("/entries/" ++ p.id) p.universe_id s }) ∧
    (∀ (p : OrderedUpdateEntryParams) (s : Option String) (body : String),
      update_entry_request { p with scope := s } body
        = { update_entry_request p body with
              url := build_url ("/entries/" ++ p.id) p.universe_id s }) ∧
    (∀ (p : OrderedIncrementEntryParams) (s : Option String) (body : String),
      increment_entry_request { p with scope := s } body
        = { increment_entry_request p body with
              url := build_url ("/entries/" ++ p.id ++ ":increment") p.universe_id s }) := by
  refine ⟨?_, ?_, ?_, rfl, ?_, ?_, ?_, ?_, ?_, ?_⟩
  · intro u scope suffix
    unfold build_url
    by_cases h : suffix.isEmpty
    · rw [if_pos h, (String.isEmpty_iff suffix).mp h, String.append_empty]
    · rw [if_neg h]
  · intro u suffix
    refine ⟨"https://apis.roblox.com/ordered-data-stores/v1/universes/" ++ toString u
        ++ "/orderedDataStores/", suffix, ?_⟩
    unfold build_url
    by_cases h : suffix.isEmpty
    · rw [if_pos h, (String.isEmpty_iff suffix).mp h, String.append_empty]
      simp [String.append_assoc]
    · rw [if_neg h]
      simp [String.append_assoc]
  · intro u suffix
    refine ⟨"https://apis.roblox.com/ordered-data-stores/v1/universes/" ++ toString u
        ++ "/orderedDataStores/", suffix, ?_⟩
    unfold build_url
    by_cases h : suffix.isEmpty
    · rw [if_pos h, (String.isEmpty_iff suffix).mp h, String.append_empty]
      simp [String.append_assoc]
    · rw [if_neg h]
      simp [String.append_assoc]
  · intro p s
    rcases p with ⟨ak, u, n, sc, mps, pt, ob, f⟩
    rfl
  · intro p s body
    rcases p with ⟨ak, u, n, sc, id, v⟩
    rfl
  · intro p s
    rcases p with ⟨ak, u, n, sc, id⟩
    rfl
  · intro p s
    rcases p with ⟨ak, u, n, sc, id⟩
    rfl
  · intro p s body
    rcases p with ⟨ak, u, n, sc, id, v, am⟩
    rfl
  · intro p s body
    rcases p with ⟨ak, u, n, sc, id, v⟩
    rfl

/-- Claim C4: for every `list_entries` parameter set, the encoded query
contains exactly the present optional parameters among `max_page_size`,
`page_token`, `order_by`, `filter`, each exactly once, integers stringified
in decimal; for every `update_entry` parameter set, the query contains
exactly the present `allow_missing`, stringified as `"true"`/`"false"`
(never `1`); absent parameters contribute no pairs at all. -/
theorem C4_query_exactly_present_params :
    (∀ p : OrderedListEntriesParams,
      (list_entries_request p).query.filter (fun kv => kv.1 == "max_page_size")
        = (match p.max_page_size with
           | some max_page_size => [("max_page_size", toString max_page_size)]
           | none => []) ∧
      (list_entries_request p).query.filter (fun kv => kv.1 == "page_token")
        = (match p.page_token with
           | some page_token => [("page_token", page_token)]
           | none => []) ∧
      (list_entries_request p).query.filter (fun kv => kv.1 == "order_by")
        = (match p.order_by with
           | some order_by => [("order_by", order_by)]
           | none => []) ∧
      (list_entries_request p).query.filter (fun kv => kv.1 == "filter")
        = (match p.filter with
           | some filter => [("filter", filter)]
           | none => []) ∧
      (∀ kv ∈ (list_entries_request p).query,
        kv.1 = "max_page_size" ∨ kv.1 = "page_token" ∨ kv.1 = "order_by" ∨ kv.1 = "filter")) ∧
    toString (25 : PageSize) = "25" ∧
    (∀ (p : OrderedUpdateEntryParams) (body : String),
      (update_entry_request p body).query.filter (fun kv => kv.1 == "allow_missing")
        = (match p.allow_missing with
           | some allow_missing => [("allow_missing", if allow_missing then "true" else "false")]
           | none => []) ∧
      (∀ kv ∈ (update_entry_request p body).query, kv.1 = "allow_missing")) := by
  refine ⟨?_, rfl, ?_⟩
  · intro p
    rcases p with ⟨ak, u, n, sc, mps, pt, ob, f⟩
    refine ⟨?_, ?_, ?_, ?_, ?_⟩ <;>
      cases mps <;> cases pt <;> cases ob <;> cases f <;>
        simp [list_entries_request, list_entries_query]
  · intro p body
    rcases p with ⟨ak, u, n, sc, id, v, am⟩
    refine ⟨?_, ?_⟩ <;>
      cases am <;> simp [update_entry_request, update_entry_query]

/-- Running `create_entry` always issues exactly the one POST request and
maps the transport outcome through `handle_res`. -/
theorem create_entry_run (p : OrderedCreateEntryParams) (send : HttpRequest → TransportResult) :
    create_entry p send
      = ((match send (create_entry_request p (jsonToString (value_body p.value))) with
          | .failure e => .error (.Transport e)
          | .ok res => handle_res decodeOrderedEntry decodeDsError res),
         [create_entry_request p (jsonToString (value_body p.value))]) := by
  cases h : send (create_entry_request p (jsonToString (value_body p.value))) <;>
    simp [create_entry, serde_to_string, h]

/-- Running `update_entry` always issues exactly the one PATCH request and
maps the transport outcome through `handle_res`. -/
theorem update_entry_run (p : OrderedUpdateEntryParams) (send : HttpRequest → TransportResult) :
    update_entry p send
      = ((match send (update_entry_request p (jsonToString (value_body p.value))) with
          | .failure e => .error (.Transport e)
          | .ok res => handle_res decodeOrderedEntry decodeDsError res),
         [update_entry_request p (jsonToString (value_body p.value))]) := by
  cases h : send (update_entry_request p (jsonToString (value_body p.value))) <;>
    simp [update_entry, serde_to_string, h]

/-- Running `increment_entry` always issues exactly the one PATCH request and
maps the transport outcome through `handle_res`. -/
theorem increment_entry_run (p : OrderedIncrementEntryParams) (send : HttpRequest → TransportResult) :
    increment_entry p send
      = ((match send (increment_entry_request p (jsonToString (amount_body p.increment))) with
          | .failure e => .error (.Transport e)
          | .ok res => handle_res decodeOrderedEntry decodeDsError res),
         [increment_entry_request p (jsonToString (amount_body p.increment))]) := by
  cases h : send (increment_entry_request p (jsonToString (amount_body p.increment))) <;>
    simp [increment_entry, serde_to_string, h]

/-- `handle_res` never produces the local serialization-error kind. -/
theorem isSerdeJsonError_handle_res {T : Type} (dec : Json → Option T)
    (decEnv : Json → Option DataStoreErrorResponse) (res : HttpResponse) :
    isSerdeJsonError (handle_res dec decEnv res) = false := by
  cases hs : isSuccess res.status with
  | true =>
    cases hb : res.body with
    | malformed => simp only [handle_res, hs, response_json, hb]; rfl
    | json j =>
      cases hd : dec j <;> (simp only [handle_res, hs, response_json, hb, hd]; rfl)
  | false =>
    cases hb : res.body with
    | malformed => simp only [handle_res, hs, response_json, hb]; rfl
    | json j =>
      cases hd : decEnv j <;> (simp only [handle_res, hs, response_json, hb, hd]; rfl)

/-- Claim C1: in every operation's response handling, a 2xx body that fails
to decode as the expected success type, and a non-2xx body that fails to
decode as the error envelope, both yield the `Undecodable` error kind, which
is a constructor distinct from the service-error kind (`DataStoreError`) and
from the transport-failure kind (`Transport`), so a caller can branch on
exactly which of the three occurred. -/
theorem C1_undecodable_is_distinct_kind :
    (∀ (T : Type) (dec : Json → Option T) (res : HttpResponse),
      isSuccess res.status = true → res.body = .malformed →
      handle_res dec decodeDsError res
        = .error (.Undecodable "response body is not valid JSON")) ∧
    (∀ (T : Type) (dec : Json → Option T) (res : HttpResponse) (j : Json),
      isSuccess res.status = true → res.body = .json j → dec j = none →
      handle_res dec decodeDsError res
        = .error (.Undecodable "response body does not match the expected schema")) ∧
    (∀ (T : Type) (dec : Json → Option T) (res : HttpResponse),
      isSuccess res.status = false → res.body = .malformed →
      handle_res dec decodeDsError res
        = .error (.Undecodable "response body is not valid JSON")) ∧
    (∀ (T : Type) (dec : Json → Option T) (res : HttpResponse) (j : Json),
      isSuccess res.status = false → res.body = .json j → decodeDsError j = none →
      handle_res dec decodeDsError res
        = .error (.Undecodable "response body does not match the expected schema")) ∧
    (∀ (msg tmsg : String) (env : DataStoreErrorResponse),
      Error.Undecodable msg ≠ Error.DataStoreError env ∧
      Error.Undecodable msg ≠ Error.Transport tmsg) := by
  refine ⟨?_, ?_, ?_, ?_, ?_⟩
  · intro T dec res hs hb
    simp [handle_res, hs, response_json, hb]
  · intro T dec res j hs hb hd
    simp [handle_res, hs, response_json, hb, hd]
  · intro T dec res hs hb
    simp [handle_res, hs, response_json, hb]
  · intro T dec res j hs hb hd
    simp [handle_res, hs, response_json, hb, hd]
  · intro msg tmsg env
    exact ⟨by simp, by simp⟩

/-- Witness for C1: a 200 response whose body is not valid JSON yields the
`Undecodable` kind, which differs from a concrete service error. -/
theorem C1_undecodable_is_distinct_kind_witness :
    handle_res decodeOrderedEntry decodeDsError res200malformed
      = .error (.Undecodable "response body is not valid JSON") ∧
    Error.Undecodable "response body is not valid JSON"
      ≠ Error.DataStoreError ⟨"NOT_FOUND", "Entry not found."⟩ := by
  constructor
  · exact C1_undecodable_is_distinct_kind.1 OrderedEntry decodeOrderedEntry res200malformed
      (by decide) rfl
  · exact (C1_undecodable_is_distinct_kind.2.2.2.2 "response body is not valid JSON" "t"
      ⟨"NOT_FOUND", "Entry not found."⟩).1

/-- Claim C2 counterexample: the single request issued by `create_entry` at a
concrete parameter set carries only the `x-api-key` header — no
`content-type` header of any spelling is attached to the JSON body, because
the source uses reqwest's `.body(..)` and never sets one.  The claim's
"serialized body sent with a JSON content type" is therefore false as
stated. -/
theorem C2_no_content_type_counterexample :
    (create_entry createParamsSample (sendConst res200entry)).2.map HttpRequest.headers
      = [[("x-api-key", "key")]] ∧
    hasHeader (create_entry_request createParamsSample "\x7b\"value\":42\x7d") "content-type"
      = false ∧
    hasHeader (create_entry_request createParamsSample "\x7b\"value\":42\x7d") "Content-Type"
      = false := by
  refine ⟨?_, rfl, rfl⟩
  rw [create_entry_run]
  rfl

/-- Claim C2 (amended): every invocation of `create_entry`, `update_entry`
and `increment_entry` issues exactly one HTTP request, carrying the caller's
credential in the `x-api-key` header, the encoded query pairs, and the
serialized JSON text as the request payload — but the client sets no
content-type header on it. -/
theorem C2_single_request_with_api_key :
    (∀ (p : OrderedCreateEntryParams) (send : HttpRequest → TransportResult),
      (create_entry p send).2 = [create_entry_request p (jsonToString (value_body p.value))] ∧
      (create_entry_request p (jsonToString (value_body p.value))).headers
        = [("x-api-key", p.api_key)] ∧
      (create_entry_request p (jsonToString (value_body p.value))).query = [("id", p.id)] ∧
      (create_entry_request p (jsonToString (value_body p.value))).body
        = some (jsonToString (value_body p.value))) ∧
    (∀ (p : OrderedUpdateEntryParams) (send : HttpRequest → TransportResult),
      (update_entry p send).2 = [update_entry_request p (jsonToString (value_body p.value))] ∧
      (update_entry_request p (jsonToString (value_body p.value))).headers
        = [("x-api-key", p.api_key)] ∧
      (update_entry_request p (jsonToString (value_body p.value))).query
        = update_entry_query p ∧
      (update_entry_request p (jsonToString (value_body p.value))).body
        = some (jsonToString (value_body p.value))) ∧
    (∀ (p : OrderedIncrementEntryParams) (send : HttpRequest → TransportResult),
      (increment_entry p send).2
        = [increment_entry_request p (jsonToString (amount_body p.increment))] ∧
      (increment_entry_request p (jsonToString (amount_body p.increment))).headers
        = [("x-api-key", p.api_key)] ∧
      (increment_entry_request p (jsonToString (amount_body p.increment))).query = [] ∧
      (increment_entry_request p (jsonToString (amount_body p.increment))).body
        = some (jsonToString (amount_body p.increment))) := by
  refine ⟨?_, ?_, ?_⟩
  · intro p send
    refine ⟨?_, rfl, rfl, rfl⟩
    rw [create_entry_run]
  · intro p send
    refine ⟨?_, rfl, rfl, rfl⟩
    rw [update_entry_run]
  · intro p send
    refine ⟨?_, rfl, rfl, rfl⟩
    rw [increment_entry_run]

/-- Claim C5: `create_entry` with id `"u1"` and value `42` issues a POST on
the `/entries` suffix whose query contains the pair `("id", "u1")` and whose
body is exactly the JSON text `\x7b"value":42\x7d` (the `i64` write shape,
not the Entry shape); and a 200 response body
`\x7b"path":"...","id":"u1","value":42.0\x7d` decodes to an `OrderedEntry`
whose value equals `42`. -/
theorem C5_create_wire_shape :
    jsonToString (value_body 42) = "\x7b\"value\":42\x7d" ∧
    (∀ send : HttpRequest → TransportResult,
      (create_entry createParamsSample send).2
        = [create_entry_request createParamsSample "\x7b\"value\":42\x7d"]) ∧
    (create_entry_request createParamsSample "\x7b\"value\":42\x7d").method = Method.POST ∧
    (create_entry_request createParamsSample "\x7b\"value\":42\x7d").url
      = "https://apis.roblox.com/ordered-data-stores/v1/universes/1/orderedDataStores/scopes/global/entries" ∧
    ("id", "u1") ∈ (create_entry_request createParamsSample "\x7b\"value\":42\x7d").query ∧
    (create_entry_request createParamsSample "\x7b\"value\":42\x7d").body
      = some "\x7b\"value\":42\x7d" ∧
    decodeOrderedEntry entryJsonSample
      = some ⟨"scopes/global/entries/u1", "u1", (42 : Rat)⟩ ∧
    (create_entry createParamsSample (sendConst res200entry)).1
      = .ok ⟨"scopes/global/entries/u1", "u1", (42 : Rat)⟩ := by
  refine ⟨rfl, ?_, rfl, rfl, ?_, rfl, ?_, ?_⟩
  · intro send
    rw [create_entry_run]
    rfl
  · exact List.mem_singleton.mpr rfl
  · rfl
  · rw [create_entry_run]
    rfl

/-- Claim C6: `increment_entry` with increment `-5` issues a PATCH on the
`/entries/\x7bid\x7d:increment` suffix with body exactly
`\x7b"amount":-5\x7d`; and the entry it returns comes solely from decoding
the server's response — the result is exactly `handle_res` applied to
whatever response the transport delivered, and whenever the call returns an
entry it is the one decoded from the response body, with no client-side
arithmetic on the value. -/
theorem C6_increment_wire_and_server_value :
    jsonToString (amount_body (-5)) = "\x7b\"amount\":-5\x7d" ∧
    (∀ send : HttpRequest → TransportResult,
      (increment_entry incrementParamsSample send).2
        = [increment_entry_request incrementParamsSample "\x7b\"amount\":-5\x7d"]) ∧
    (increment_entry_request incrementParamsSample "\x7b\"amount\":-5\x7d").method
      = Method.PATCH ∧
    (increment_entry_request incrementParamsSample "\x7b\"amount\":-5\x7d").url
      = "https://apis.roblox.com/ordered-data-stores/v1/universes/1/orderedDataStores/scopes/global/entries/e1:increment" ∧
    (increment_entry_request incrementParamsSample "\x7b\"amount\":-5\x7d").body
      = some "\x7b\"amount\":-5\x7d" ∧
    (∀ (p : OrderedIncrementEntryParams) (send : HttpRequest → TransportResult)
        (res : HttpResponse),
      send (increment_entry_request p (jsonToString (amount_body p.increment))) = .ok res →
      (increment_entry p send).1 = handle_res decodeOrderedEntry decodeDsError res) ∧
    (∀ (p : OrderedIncrementEntryParams) (res : HttpResponse) (j : Json) (e : OrderedEntry),
      isSuccess res.status = true → res.body = .json j → decodeOrderedEntry j = some e →
      (increment_entry p (sendConst res)).1 = .ok e) := by
  refine ⟨rfl, ?_, rfl, rfl, rfl, ?_, ?_⟩
  · intro send
    rw [increment_entry_run]
    rfl
  · intro p send res h
    rw [increment_entry_run, h]
  · intro p res j e hs hb hd
    rw [increment_entry_run]
    simp only [sendConst, handle_res, hs, response_json, hb, hd]

/-- Witness for C6: with a transport answering 200 and an entry body, the
increment result is exactly the decode of that response. -/
theorem C6_increment_wire_and_server_value_witness :
    (increment_entry incrementParamsSample (sendConst res200entry)).1
      = handle_res decodeOrderedEntry decodeDsError res200entry ∧
    (increment_entry incrementParamsSample (sendConst res200entry)).1
      = .ok ⟨"scopes/global/entries/u1", "u1", (42 : Rat)⟩ := by
  constructor
  · exact C6_increment_wire_and_server_value.2.2.2.2.2.1 incrementParamsSample
      (sendConst res200entry) res200entry rfl
  · exact C6_increment_wire_and_server_value.2.2.2.2.2.2 incrementParamsSample res200entry
      entryJsonSample ⟨"scopes/global/entries/u1", "u1", (42 : Rat)⟩ (by decide) rfl (by decide)

/-- Claim C7: in every operation's response handling, a non-2xx response
whose body decodes as the error envelope is returned as
`Error.DataStoreError` carrying exactly that envelope — in particular a 404
with body `\x7b"code":"NOT_FOUND","message":"Entry not found."\x7d` on
`get_entry` yields exactly that service error, never a generic or transport
error. -/
theorem C7_service_error_carries_envelope :
    (∀ (T : Type) (dec : Json → Option T) (res : HttpResponse) (j : Json)
        (env : DataStoreErrorResponse),
      isSuccess res.status = false → res.body = .json j → decodeDsError j = some env →
      handle_res dec decodeDsError res = .error (.DataStoreError env)) ∧
    (∀ (res : HttpResponse) (j : Json) (env : DataStoreErrorResponse),
      isSuccess res.status = false → res.body = .json j → decodeDsError j = some env →
      handle_res_ok decodeDsError res = .error (.DataStoreError env)) ∧
    (get_entry entryParamsSample (sendConst res404notFound)).1
      = .error (.DataStoreError ⟨"NOT_FOUND", "Entry not found."⟩) := by
  refine ⟨?_, ?_, ?_⟩
  · intro T dec res j env hs hb hd
    simp only [handle_res, hs, response_json, hb, hd]
  · intro res j env hs hb hd
    simp only [handle_res_ok, hs, response_json, hb, hd]
  · rfl

/-- Witness for C7: the 404 `NOT_FOUND` envelope surfaces as exactly that
service error through `handle_res`. -/
theorem C7_service_error_carries_envelope_witness :
    handle_res decodeOrderedEntry decodeDsError res404notFound
      = .error (.DataStoreError ⟨"NOT_FOUND", "Entry not found."⟩) := by
  exact C7_service_error_carries_envelope.1 OrderedEntry decodeOrderedEntry res404notFound
    (.obj [("code", .str "NOT_FOUND"), ("message", .str "Entry not found.")])
    ⟨"NOT_FOUND", "Entry not found."⟩ (by decide) rfl (by decide)

/-- Claim C8: `delete_entry` returns unit success on any 2xx response while
attempting no body decoding — in particular a 200 with a malformed non-empty
body and a 204 with an empty body both succeed. -/
theorem C8_delete_ignores_success_body :
    (∀ (p : OrderedEntryParams) (send : HttpRequest → TransportResult) (res : HttpResponse),
      send (delete_entry_request p) = .ok res → isSuccess res.status = true →
      delete_entry p send = (.ok (), [delete_entry_request p])) ∧
    delete_entry entryParamsSample (sendConst res200malformed)
      = (.ok (), [delete_entry_request entryParamsSample]) ∧
    delete_entry entryParamsSample (sendConst res204empty)
      = (.ok (), [delete_entry_request entryParamsSample]) := by
  refine ⟨?_, rfl, rfl⟩
  intro p send res h hs
  simp only [delete_entry, h, handle_res_ok, hs]

/-- Witness for C8: deleting against a transport that answers 200 with a
body that is not JSON still succeeds. -/
theorem C8_delete_ignores_success_body_witness :
    delete_entry entryParamsSample (sendConst res200malformed)
      = (.ok (), [delete_entry_request entryParamsSample]) := by
  exact C8_delete_ignores_success_body.1 entryParamsSample (sendConst res200malformed)
    res200malformed rfl (by decide)

/-- A field key that occurs nowhere in an object is reported absent by the
serde field lookup. -/
theorem getUnique_of_key_not_mem (fields : List (String × Json)) (key : String)
    (h : ∀ kv ∈ fields, kv.1 ≠ key) : getUnique fields key = some none := by
  unfold getUnique
  have hf : fields.filter (fun kv => kv.1 == key) = [] := by
    rw [List.filter_eq_nil_iff]
    intro kv hkv
    simpa using h kv hkv
  rw [hf]

/-- Claim C9: a 2xx list response whose JSON object carries no
`nextPageToken` field decodes to a listing page whose `next_page_token` is
`none` (the last page); and whatever token string a caller passes as
`page_token` is placed verbatim, exactly once, as the value of the
`page_token` query pair of the next `list_entries` request. -/
theorem C9_next_page_token_roundtrip :
    (∀ (status : Nat) (fields : List (String × Json)) (page : OrderedListEntriesResponse),
      isSuccess status = true →
      (∀ kv ∈ fields, kv.1 ≠ "nextPageToken") →
      handle_res decodeListResponse decodeDsError ⟨status, .json (.obj fields)⟩ = .ok page →
      page.next_page_token = none) ∧
    (∀ (p : OrderedListEntriesParams) (token : String),
      queryKeyPairs (list_entries_request { p with page_token := some token }) "page_token"
        = [("page_token", token)]) := by
  constructor
  · intro status fields page hs hno hdec
    have hg := getUnique_of_key_not_mem fields "nextPageToken" hno
    simp only [handle_res, hs, response_json] at hdec
    rcases hd : decodeListResponse (.obj fields) with _ | page2 <;> rw [hd] at hdec
    · simp at hdec
    · injection hdec with h2
      subst h2
      simp only [decodeListResponse] at hd
      rw [hg] at hd
      rcases he : getUnique fields "entries" with _ | (_ | j) <;> rw [he] at hd <;>
        try simp at hd
      cases j <;> simp at hd
      rename_i elems
      rcases hm : decodeEntries elems with _ | entries <;> rw [hm] at hd
      · simp [decodeOptString] at hd
      · simp only [decodeOptString] at hd
        injection hd with h3
        rw [← h3]
  · intro p token
    rcases p with ⟨ak, u, n, sc, mps, pt, ob, f⟩
    cases mps <;> cases ob <;> cases f <;>
      simp [queryKeyPairs, list_entries_request, list_entries_query]

/-- Witness for C9: a 200 list response with an empty `entries` array and no
`nextPageToken` field signals the last page, and the sample page token is
placed verbatim in the follow-up request's query. -/
theorem C9_next_page_token_roundtrip_witness :
    (⟨[], none⟩ : OrderedListEntriesResponse).next_page_token = none ∧
    queryKeyPairs (list_entries_request { listParamsSample with page_token := some "tok" })
        "page_token"
      = [("page_token", "tok")] := by
  constructor
  · exact C9_next_page_token_roundtrip.1 200 [("entries", .arr [])] ⟨[], none⟩ (by decide)
      (by decide) rfl
  · exact C9_next_page_token_roundtrip.2 listParamsSample "tok"

/-- Witness for C4: with every optional field present, each parameter
appears exactly once with its stringified value, and a sample query pair
carries one of the four parameter names. -/
theorem C4_query_exactly_present_params_witness :
    queryKeyPairs (list_entries_request listParamsSample) "max_page_size"
      = [("max_page_size", "25")] ∧
    (("max_page_size", "25").1 = "max_page_size" ∨ ("max_page_size", "25").1 = "page_token" ∨
      ("max_page_size", "25").1 = "order_by" ∨ ("max_page_size", "25").1 = "filter") ∧
    queryKeyPairs (update_entry_request updateParamsSample "\x7b\"value\":42\x7d")
        "allow_missing"
      = [("allow_missing", "true")] := by
  refine ⟨?_, ?_, ?_⟩
  · exact (C4_query_exactly_present_params.1 listParamsSample).1
  · exact (C4_query_exactly_present_params.1 listParamsSample).2.2.2.2
      ("max_page_size", "25") (by decide)
  · exact (C4_query_exactly_present_params.2.2 updateParamsSample "\x7b\"value\":42\x7d").1

/-- Claim C10: for every `i64` value, serializing the write body of
`create_entry`, `update_entry` and `increment_entry` succeeds, so the local
serialization-error branch of those operations is unreachable: each always
issues its one request, never returns the serialization-error kind, and its
result is entirely determined by the transport outcome and the response
handling. -/
theorem C10_write_body_serialization_never_fails :
    (∀ v : Int, (serde_to_string (value_body v)).isOk = true ∧
      (serde_to_string (amount_body v)).isOk = true) ∧
    (∀ (p : OrderedCreateEntryParams) (send : HttpRequest → TransportResult),
      (create_entry p send).2.length = 1 ∧
      isSerdeJsonError (create_entry p send).1 = false ∧
      (create_entry p send).1
        = (match send (create_entry_request p (jsonToString (value_body p.value))) with
           | .failure e => .error (.Transport e)
           | .ok res => handle_res decodeOrderedEntry decodeDsError res)) ∧
    (∀ (p : OrderedUpdateEntryParams) (send : HttpRequest → TransportResult),
      (update_entry p send).2.length = 1 ∧
      isSerdeJsonError (update_entry p send).1 = false ∧
      (update_entry p send).1
        = (match send (update_entry_request p (jsonToString (value_body p.value))) with
           | .failure e => .error (.Transport e)
           | .ok res => handle_res decodeOrderedEntry decodeDsError res)) ∧
    (∀ (p : OrderedIncrementEntryParams) (send : HttpRequest → TransportResult),
      (increment_entry p send).2.length = 1 ∧
      isSerdeJsonError (increment_entry p send).1 = false ∧
      (increment_entry p send).1
        = (match send (increment_entry_request p (jsonToString (amount_body p.increment))) with
           | .failure e => .error (.Transport e)
           | .ok res => handle_res decodeOrderedEntry decodeDsError res)) := by
  refine ⟨fun v => ⟨rfl, rfl⟩, ?_, ?_, ?_⟩
  · intro p send
    refine ⟨?_, ?_, ?_⟩
    · rw [create_entry_run]
      rfl
    · rw [create_entry_run]
      cases send (create_entry_request p (jsonToString (value_body p.value))) with
      | ok res => exact isSerdeJsonError_handle_res decodeOrderedEntry decodeDsError res
      | failure e => rfl
    · rw [create_entry_run]
  · intro p send
    refine ⟨?_, ?_, ?_⟩
    · rw [update_entry_run]
      rfl
    · rw [update_entry_run]
      cases send (update_entry_request p (jsonToString (value_body p.value))) with
      | ok res => exact isSerdeJsonError_handle_res decodeOrderedEntry decodeDsError res
      | failure e => rfl
    · rw [update_entry_run]
  · intro p send
    refine ⟨?_, ?_, ?_⟩
    · rw [increment_entry_run]
      rfl
    · rw [increment_entry_run]
      cases send (increment_entry_request p (jsonToString (amount_body p.increment))) with
      | ok res => exact isSerdeJsonError_handle_res decodeOrderedEntry decodeDsError res
      | failure e => rfl
    · rw [increment_entry_run]
